import Mathlib

/-!
Shallow embedding of `src/main.py`, a single-file personal finance dashboard
(expense ledger, investment valuation loop, portfolio totals, AI feedback).

Modelling conventions:
* Monetary amounts and prices are exact rationals (`ℚ`).  The script works on
  Python / numpy floats; all claims here are about control flow and exact
  formulas, and every concrete instance used below is exactly representable.
* `datetime.date` is modelled as an integer day number (`ℤ`);
  `datetime.timedelta(days=7)` is subtraction of `7`.
* The display-only `round(x, k)` calls on lines 139-144 of the source are
  omitted: they format the table cells and never feed back into any
  computation (the totals on lines 128 and 146 accumulate the unrounded
  values).
* Fallible external calls are modelled by explicit sum types: the per-symbol
  quote fetch (lines 130-131) becomes an `Option ℚ` (`none` = any exception
  in the `try` body: unknown symbol, network error, empty quote series), and
  the chat-completion call (lines 210-216) becomes an `Except String String`
  (`error` = `str(e)` of the raised exception).
* Python float division by zero inside the success branch: `invested`,
  `current_value - invested` and `price` are numpy `float64` scalars there
  (the price comes from a pandas series), and numpy scalar division by zero
  returns an IEEE special value with a `RuntimeWarning` instead of raising
  `ZeroDivisionError`.  With `invested = 0` the expression on line 144 is
  exactly `0.0 / 0.0`, which is NaN.  The embedding records that outcome with
  an explicit `Cell.nan` constructor rather than importing IEEE arithmetic.
-/

namespace Main

/-- One row of `data/expenses.csv`: date, category, amount. -/
structure ExpenseRecord where
  date : ℤ
  category : String
  amount : ℚ
deriving Repr, DecidableEq

/-- One row of `data/investments.csv`: symbol, amount_invested, date_added. -/
structure InvestmentRecord where
  symbol : String
  amount_invested : ℚ
  date_added : ℤ
deriving Repr, DecidableEq

/-- A pandas DataFrame, reduced to what the script uses: a fixed column
header plus an ordered list of typed rows. -/
structure DataFrame (α : Type) where
  columns : List String
  rows : List α
deriving Repr, DecidableEq

/-- State of one backing CSV file as the loader sees it:
`missing` = `os.path.exists` is false; `malformed` = `pd.read_csv` (or, for
expenses, the date conversion on line 32) raises; `good rows` = the file
parses into the fixed schema. -/
inductive CsvResource (α : Type) where
  | missing : CsvResource α
  | malformed : CsvResource α
  | good : List α → CsvResource α
deriving Repr, DecidableEq

def expense_columns : List String := ["date", "category", "amount"]

def investment_columns : List String := ["symbol", "amount_invested", "date_added"]

/-- `load_expenses` (source lines 28-38): the `try` block returns the parsed
frame when the file exists and parses, the empty schema frame when the file
is absent, and the `except` branch returns the empty schema frame on any
parse error.  It is a total function: no error escapes this boundary. -/
def load_expenses : CsvResource ExpenseRecord → DataFrame ExpenseRecord
  | CsvResource.missing => ⟨expense_columns, []⟩
  | CsvResource.malformed => ⟨expense_columns, []⟩
  | CsvResource.good rows => ⟨expense_columns, rows⟩

/-- `load_investments` (source lines 41-50), same shape as `load_expenses`. -/
def load_investments : CsvResource InvestmentRecord → DataFrame InvestmentRecord
  | CsvResource.missing => ⟨investment_columns, []⟩
  | CsvResource.malformed => ⟨investment_columns, []⟩
  | CsvResource.good rows => ⟨investment_columns, rows⟩

/-- `add_investment` (source lines 53-63), successful-write path: load the
current frame, concat one new row `[symbol, amount, today]`, and write the
whole dataset back (`to_csv` rewrites the file, so the new resource state is
exactly the written rows).  The `except` branch (write failure) leaves the
resource unchanged and is outside every claim below, which all presuppose
the append happened. -/
def add_investment (res : CsvResource InvestmentRecord) (symbol : String)
    (amount : ℚ) (today : ℤ) : CsvResource InvestmentRecord :=
  let investments := load_investments res
  CsvResource.good (investments.rows ++ [⟨symbol, amount, today⟩])

/-- Weekly summary filter (source lines 91-93):
`expenses[expenses['date'] >= seven_days_ago]` with
`seven_days_ago = today - timedelta(days=7)`. -/
def weekly_view (expenses : List ExpenseRecord) (as_of : ℤ) : List ExpenseRecord :=
  expenses.filter (fun e => decide (as_of - 7 ≤ e.date))

/-- `weekly['amount'].sum()` (source line 94). -/
def total (es : List ExpenseRecord) : ℚ :=
  (es.map (fun e => e.amount)).sum

/-- The distinct categories present, in order of first occurrence.  pandas
`groupby` sorts its keys; the claims below are about the key SET and the
value sum, both order-independent, so first-occurrence order is used. -/
def categories (es : List ExpenseRecord) : List String :=
  (es.map (fun e => e.category)).dedup

/-- `expenses.groupby('category')['amount'].sum()` (source line 176): one
pair per distinct category present, carrying the sum of that category. -/
def by_category (es : List ExpenseRecord) : List (String × ℚ) :=
  (categories es).map (fun c =>
    (c, total (es.filter (fun e => decide (e.category = c)))))

/-- One displayed table cell of the investment tracker.  `val q` is a
numeric cell, `nan` is the IEEE NaN produced by the numpy float division
`0.0 / 0.0` on source line 144, `na` is the literal string cell written by
the `except` branch (source lines 150-158). -/
inductive Cell where
  | val : ℚ → Cell
  | nan : Cell
  | na : Cell
deriving Repr, DecidableEq

/-- One entry of `investment_data` (source lines 137-145 and 150-158). -/
structure InvestmentRow where
  symbol : String
  invested : ℚ
  approx_shares : Cell
  current_price : Cell
  current_value : Cell
  gain : Cell
  gain_pct : Cell
deriving Repr, DecidableEq

/-- The `try` branch of the tracker loop after a successful price fetch
(source lines 134-145).  `approx_shares = invested / price`,
`current_value = price * approx_shares`; the gain percentage divides by
`invested` with no guard, so with `invested = 0` the numerator and the
denominator are both exactly `0.0` and the numpy float result is NaN.
Quote prices are positive closes, so `price ≠ 0` holds in every claim that
uses this branch; at `price = 0` rational division (which yields `0`) would
diverge from float division and the model makes no claim there. -/
def processSuccess (symbol : String) (invested price : ℚ) : InvestmentRow :=
  let approx_shares := invested / price
  let current_value := price * approx_shares
  ⟨symbol, invested, Cell.val approx_shares, Cell.val price,
   Cell.val current_value, Cell.val (current_value - invested),
   if invested = 0 then Cell.nan
   else Cell.val ((current_value - invested) / invested * 100)⟩

/-- The `except` branch of the tracker loop (source lines 147-159): the row
is still appended, keeping the symbol and the raw invested amount, with the
string "N/A" in every price-derived column. -/
def processFailure (symbol : String) (invested : ℚ) : InvestmentRow :=
  ⟨symbol, invested, Cell.na, Cell.na, Cell.na, Cell.na, Cell.na⟩

/-- Mutable state of the tracker loop (source lines 119-121):
`investment_data`, `total_value`, `total_invested`. -/
structure TrackerState where
  investment_data : List InvestmentRow
  total_value : ℚ
  total_invested : ℚ
deriving Repr, DecidableEq

/-- One iteration of the tracker loop (source lines 125-159), driven by an
investment record paired with the outcome of its price fetch.
`total_invested += invested` happens before the `try` (line 128), so it runs
in both branches; `total_value += current_value` runs only on success
(line 146); the `except` branch appends the N/A row and continues. -/
def trackerStep (s : TrackerState) (rf : InvestmentRecord × Option ℚ) : TrackerState :=
  let invested := rf.1.amount_invested
  match rf.2 with
  | some price =>
      let approx_shares := invested / price
      let current_value := price * approx_shares
      ⟨s.investment_data ++ [processSuccess rf.1.symbol invested price],
       s.total_value + current_value,
       s.total_invested + invested⟩
  | none =>
      ⟨s.investment_data ++ [processFailure rf.1.symbol invested],
       s.total_value,
       s.total_invested + invested⟩

/-- The whole tracker loop from the initial state (source lines 119-159). -/
def runTracker (l : List (InvestmentRecord × Option ℚ)) : TrackerState :=
  l.foldl trackerStep ⟨[], 0, 0⟩

/-- The row a single record produces, by fetch outcome. -/
def processRecord : InvestmentRecord × Option ℚ → InvestmentRow
  | (r, some price) => processSuccess r.symbol r.amount_invested price
  | (r, none) => processFailure r.symbol r.amount_invested

/-- The contribution of one record to `total_value`: the computed
`current_value` on success, nothing on fetch failure. -/
def recordValue : InvestmentRecord × Option ℚ → ℚ
  | (r, some price) => price * (r.amount_invested / price)
  | (_, none) => 0

def sumInvested (l : List (InvestmentRecord × Option ℚ)) : ℚ :=
  (l.map (fun rf => rf.1.amount_invested)).sum

def sumValue (l : List (InvestmentRecord × Option ℚ)) : ℚ :=
  (l.map recordValue).sum

/-- Displayed Total Gain/Loss metric (source line 167):
`total_value - total_invested`. -/
def totalGain (s : TrackerState) : ℚ :=
  s.total_value - s.total_invested

/-- Displayed Total Gain/Loss percentage (source line 168): the division is
guarded by `if total_invested > 0`; otherwise the fixed string "0.00%" is
shown, modelled as the value `0`. -/
def totalGainPct (s : TrackerState) : ℚ :=
  if s.total_invested > 0 then
    (s.total_value - s.total_invested) / s.total_invested * 100
  else 0

/-- `generate_feedback` (source lines 188-219) with the external
chat-completion call abstracted as its outcome.  Everything in the `try`
body funnels into that call; its reply is returned on success, and the
`except` branch returns the f-string
`"Unable to generate feedback: " + str(e)` — the whole body never lets an
exception propagate.  When no API key is configured the function returns
early before contacting the collaborator. -/
def generate_feedback (apiKeyConfigured : Bool) (chat : Except String String) : String :=
  if apiKeyConfigured = false then
    "OpenAI API key not configured. Please add it to your secrets."
  else
    match chat with
    | Except.ok reply => reply
    | Except.error e => "Unable to generate feedback: " ++ e

/-! ### Helper lemmas -/

/-- Characterization of the tracker loop from an arbitrary starting state:
it appends one row per record and accumulates the two running totals. -/
theorem foldl_trackerStep_spec (l : List (InvestmentRecord × Option ℚ)) :
    ∀ s : TrackerState, l.foldl trackerStep s =
      ⟨s.investment_data ++ l.map processRecord,
       s.total_value + sumValue l,
       s.total_invested + sumInvested l⟩ := by
  induction l with
  | nil =>
      intro s
      simp [sumValue, sumInvested]
  | cons rf t ih =>
      intro s
      obtain ⟨r, o⟩ := rf
      cases o with
      | none =>
          simp [List.foldl_cons, trackerStep, ih, sumValue, sumInvested,
                processRecord, recordValue, add_assoc]
      | some p =>
          simp [List.foldl_cons, trackerStep, ih, sumValue, sumInvested,
                processRecord, recordValue, add_assoc]

theorem runTracker_data (l : List (InvestmentRecord × Option ℚ)) :
    (runTracker l).investment_data = l.map processRecord := by
  rw [runTracker, foldl_trackerStep_spec]
  simp

theorem runTracker_total_invested (l : List (InvestmentRecord × Option ℚ)) :
    (runTracker l).total_invested = sumInvested l := by
  rw [runTracker, foldl_trackerStep_spec]
  simp

theorem runTracker_total_value (l : List (InvestmentRecord × Option ℚ)) :
    (runTracker l).total_value = sumValue l := by
  rw [runTracker, foldl_trackerStep_spec]
  simp

theorem sumInvested_append (a b : List (InvestmentRecord × Option ℚ)) :
    sumInvested (a ++ b) = sumInvested a + sumInvested b := by
  simp [sumInvested]

theorem sumInvested_cons (x : InvestmentRecord × Option ℚ)
    (l : List (InvestmentRecord × Option ℚ)) :
    sumInvested (x :: l) = x.1.amount_invested + sumInvested l := by
  simp [sumInvested]

theorem sumValue_append (a b : List (InvestmentRecord × Option ℚ)) :
    sumValue (a ++ b) = sumValue a + sumValue b := by
  simp [sumValue]

theorem sumValue_cons (x : InvestmentRecord × Option ℚ)
    (l : List (InvestmentRecord × Option ℚ)) :
    sumValue (x :: l) = recordValue x + sumValue l := by
  simp [sumValue]

/-- Splitting a total along a boolean predicate. -/
theorem total_filter_not (p : ExpenseRecord → Bool) (es : List ExpenseRecord) :
    total (es.filter p) + total (es.filter (fun e => !(p e))) = total es := by
  induction es with
  | nil => simp [total]
  | cons e t ih =>
      cases hpe : p e <;> simp [total, List.filter_cons, hpe] at ih ⊢ <;> linarith

/-- Removing the elements of one category does not change the slice of a
different category. -/
theorem filter_category_erase (es : List ExpenseRecord) (c c' : String)
    (h : c' ≠ c) :
    (es.filter (fun e => !(decide (e.category = c)))).filter
        (fun e => decide (e.category = c'))
      = es.filter (fun e => decide (e.category = c')) := by
  induction es with
  | nil => rfl
  | cons e t ih =>
      by_cases hc : e.category = c
      · have hcc' : ¬ c = c' := fun hh => h hh.symm
        simp [List.filter_cons, hc, hcc', ih]
      · simp [List.filter_cons, hc, ih]

/-- Summing the per-category totals over any duplicate-free list of
categories covering the data recovers the grand total. -/
theorem sum_by_cats (cats : List String) :
    ∀ es : List ExpenseRecord, cats.Nodup → (∀ e ∈ es, e.category ∈ cats) →
      (cats.map (fun c =>
          total (es.filter (fun e => decide (e.category = c))))).sum = total es := by
  induction cats with
  | nil =>
      intro es _ hcov
      match es with
      | [] => simp [total]
      | e :: t => exact absurd (hcov e (List.mem_cons_self e t)) (by simp)
  | cons c cats ih =>
      intro es hnd hcov
      have hnotmem : c ∉ cats := (List.nodup_cons.mp hnd).1
      have hnd' : cats.Nodup := (List.nodup_cons.mp hnd).2
      have hmap : cats.map (fun x =>
            total (es.filter (fun e => decide (e.category = x))))
          = cats.map (fun x =>
            total ((es.filter (fun e => !(decide (e.category = c)))).filter
              (fun e => decide (e.category = x)))) := by
        apply List.map_congr_left
        intro c' hc'
        rw [filter_category_erase]
        intro hcc
        exact hnotmem (hcc ▸ hc')
      have hcov' : ∀ e ∈ es.filter (fun e => !(decide (e.category = c))),
          e.category ∈ cats := by
        intro e he
        rcases List.mem_filter.mp he with ⟨hmem, hprop⟩
        have hne : ¬ e.category = c := by
          simpa using hprop
        rcases List.mem_cons.mp (hcov e hmem) with h1 | h1
        · exact absurd h1 hne
        · exact h1
      rw [List.map_cons, List.sum_cons, hmap,
        ih (es.filter (fun e => !(decide (e.category = c)))) hnd' hcov']
      exact total_filter_not (fun e => decide (e.category = c)) es

/-! ### Claim theorems -/

/-- C4: for every state of the backing resource, `load` never raises past
the Record Store boundary (both loaders are total functions of the resource
state); when the backing file does not exist or fails to parse, the result
is an empty row sequence carrying the fixed column schema
(date, category, amount for expenses; symbol, amount_invested, date_added
for investments), and the schema header is present in every case. -/
theorem load_failure_empty_schema :
    load_expenses CsvResource.missing = ⟨expense_columns, []⟩ ∧
    load_expenses CsvResource.malformed = ⟨expense_columns, []⟩ ∧
    load_investments CsvResource.missing = ⟨investment_columns, []⟩ ∧
    load_investments CsvResource.malformed = ⟨investment_columns, []⟩ ∧
    expense_columns = ["date", "category", "amount"] ∧
    investment_columns = ["symbol", "amount_invested", "date_added"] ∧
    (∀ r : CsvResource ExpenseRecord, (load_expenses r).columns = expense_columns) ∧
    (∀ r : CsvResource InvestmentRecord, (load_investments r).columns = investment_columns) :=
  ⟨rfl, rfl, rfl, rfl, rfl, rfl,
   fun r => by cases r <;> rfl,
   fun r => by cases r <;> rfl⟩

/-- C5: the weekly view keeps exactly the expense records with
`date ≥ as_of - 7`: a record is in the view iff it is in the input and meets
the inclusive lower bound (so the boundary date `as_of - 7` is kept and any
strictly earlier date is dropped), and the view is a subsequence of the
input. -/
theorem weekly_view_membership (expenses : List ExpenseRecord) (as_of : ℤ)
    (e : ExpenseRecord) :
    (e ∈ weekly_view expenses as_of ↔ e ∈ expenses ∧ as_of - 7 ≤ e.date) ∧
    List.Sublist (weekly_view expenses as_of) expenses := by
  constructor
  · simp [weekly_view, List.mem_filter]
  · exact List.filter_sublist expenses

/-- C8: appending an investment record to any resource state that parses
into rows, then reloading, yields a row sequence whose last element is
exactly the appended record. -/
theorem append_reload_last (rows : List InvestmentRecord) (symbol : String)
    (amount : ℚ) (today : ℤ) :
    (load_investments (add_investment (CsvResource.good rows) symbol amount today)).rows.getLast?
      = some ⟨symbol, amount, today⟩ := by
  simp [add_investment, load_investments]

/-- C9 (amended): when the chat-completion collaborator fails, the feedback
operation never propagates the failure; it returns a fallback text, but the
text is not the fixed string claimed — it is the prefix
"Unable to generate feedback: " followed by the error description of the
exception, so it varies with the failure. -/
theorem feedback_error_returns_fallback (e : String) :
    generate_feedback true (Except.error e)
      = "Unable to generate feedback: " ++ e := rfl

/-- C9 counterexample: the fallback is not the fixed text
"unable to generate feedback" — at a concrete failure the returned string
differs from the claimed constant, and two different failures yield two
different outputs, so no fixed text is returned. -/
theorem feedback_fallback_not_fixed :
    generate_feedback true (Except.error "boom") ≠ "unable to generate feedback" ∧
    generate_feedback true (Except.error "boom")
      ≠ generate_feedback true (Except.error "HTTP 500") := by
  constructor <;> decide

/-- C6: the keys of the category aggregation are exactly the distinct
categories present in the input (a category is a key iff some input record
carries it), and the values sum to the total of the same input. -/
theorem by_category_keys_and_sum (es : List ExpenseRecord) :
    (∀ c : String,
        c ∈ (by_category es).map Prod.fst ↔ c ∈ es.map (fun e => e.category)) ∧
    ((by_category es).map Prod.snd).sum = total es := by
  constructor
  · intro c
    simp [by_category, categories, List.map_map, Function.comp, List.mem_dedup]
  · have hsnd : (by_category es).map Prod.snd
        = (categories es).map (fun c =>
            total (es.filter (fun e => decide (e.category = c)))) := by
      simp [by_category, List.map_map, Function.comp]
    rw [hsnd]
    exact sum_by_cats (categories es) es (List.nodup_dedup _)
      (fun e he => List.mem_dedup.mpr (List.mem_map_of_mem _ he))

/-- C7: the tracker totals over an empty investment set are all zero
(invested, current value, gain and gain percentage) rather than a failure,
and whenever the accumulated `total_invested` is zero the displayed gain
percentage is the guarded zero value, never a division by zero. -/
theorem portfolio_totals_zero (l : List (InvestmentRecord × Option ℚ))
    (h : (runTracker l).total_invested = 0) :
    ((runTracker []).investment_data = [] ∧
     (runTracker []).total_invested = 0 ∧
     (runTracker []).total_value = 0 ∧
     totalGain (runTracker []) = 0 ∧
     totalGainPct (runTracker []) = 0) ∧
    totalGainPct (runTracker l) = 0 := by
  refine ⟨⟨rfl, rfl, rfl, by norm_num [totalGain, runTracker], ?_⟩, ?_⟩
  · simp [totalGainPct, runTracker]
  · simp [totalGainPct, h]

/-- C7 witness: the theorem applied to the empty record list. -/
theorem portfolio_totals_zero_witness :
    (runTracker []).total_invested = 0 ∧ totalGainPct (runTracker []) = 0 :=
  ⟨rfl, (portfolio_totals_zero [] rfl).2⟩

/-- C3: when the price fetch fails for one record in a sequence, that
record still appears in the output row list, in place, with the string
"N/A" in every price-derived column and its raw invested amount kept, and
the rows of every other record are literally the same as in the run where
that fetch succeeds (both runs map the unchanged surrounding records to the
same rows). -/
theorem fetch_failure_isolated (pre post : List (InvestmentRecord × Option ℚ))
    (r : InvestmentRecord) (p : ℚ) :
    (runTracker (pre ++ (r, none) :: post)).investment_data
      = pre.map processRecord
          ++ processFailure r.symbol r.amount_invested :: post.map processRecord ∧
    (runTracker (pre ++ (r, some p) :: post)).investment_data
      = pre.map processRecord
          ++ processSuccess r.symbol r.amount_invested p :: post.map processRecord ∧
    (processFailure r.symbol r.amount_invested).invested = r.amount_invested ∧
    (processFailure r.symbol r.amount_invested).approx_shares = Cell.na ∧
    (processFailure r.symbol r.amount_invested).current_price = Cell.na ∧
    (processFailure r.symbol r.amount_invested).current_value = Cell.na ∧
    (processFailure r.symbol r.amount_invested).gain = Cell.na ∧
    (processFailure r.symbol r.amount_invested).gain_pct = Cell.na := by
  refine ⟨?_, ?_, rfl, rfl, rfl, rfl, rfl, rfl⟩
  · rw [runTracker_data]
    simp [processRecord]
  · rw [runTracker_data]
    simp [processRecord]

/-- C1 (amended): with invested amount zero and a successfully fetched
nonzero price, the loop iteration does not raise past the record — the row
is still appended in place and the loop continues — but the gain percentage
cell is the NaN produced by the unguarded float division `0.0 / 0.0`, not
an unavailable marker and not zero; the other derived fields are zero and
the raw invested amount is kept. -/
theorem zero_invested_gain_pct_nan
    (pre post : List (InvestmentRecord × Option ℚ)) (symbol : String)
    (d : ℤ) (price : ℚ) (h : price ≠ 0) :
    (runTracker (pre ++ (⟨symbol, 0, d⟩, some price) :: post)).investment_data
      = pre.map processRecord
          ++ processSuccess symbol 0 price :: post.map processRecord ∧
    (processSuccess symbol 0 price).gain_pct = Cell.nan ∧
    (processSuccess symbol 0 price).invested = 0 ∧
    (processSuccess symbol 0 price).approx_shares = Cell.val 0 ∧
    (processSuccess symbol 0 price).current_value = Cell.val 0 ∧
    (processSuccess symbol 0 price).gain = Cell.val 0 := by
  refine ⟨?_, ?_, rfl, ?_, ?_, ?_⟩
  · rw [runTracker_data]
    simp [processRecord]
  · simp [processSuccess]
  · simp [processSuccess]
  · simp [processSuccess]
  · simp [processSuccess]

/-- C1 witness: the theorem applied at a concrete record (invested 0,
price 50). -/
theorem zero_invested_gain_pct_nan_witness :
    (50 : ℚ) ≠ 0 ∧ (processSuccess "AAPL" 0 50).gain_pct = Cell.nan :=
  ⟨by norm_num, (zero_invested_gain_pct_nan [] [] "AAPL" 0 50 (by norm_num)).2.1⟩

/-- C1 counterexample: at invested 0 and fetched price 50 the gain
percentage cell is neither the unavailable marker nor zero (it is NaN), so
the claim as stated fails on the code. -/
theorem zero_invested_gain_pct_cex :
    ¬ ((processSuccess "AAPL" 0 50).gain_pct = Cell.na ∨
       (processSuccess "AAPL" 0 50).gain_pct = Cell.val 0) := by
  decide

/-- C2: with invested > 0 and fetched price > 0 the computed metrics follow
the spec formulas — approx_quantity = invested / price, current_value =
price * approx_quantity, gain = current_value - invested, gain_pct =
gain / invested * 100 — and in particular invested 100 at price 50 gives
approx_quantity 2, current_value 100, gain 0 and gain_pct 0. -/
theorem compute_metrics_formulas (symbol : String) (invested price : ℚ)
    (h1 : 0 < invested) (h2 : 0 < price) :
    ((processSuccess symbol invested price).approx_shares
        = Cell.val (invested / price) ∧
     (processSuccess symbol invested price).current_value
        = Cell.val (price * (invested / price)) ∧
     (processSuccess symbol invested price).gain
        = Cell.val (price * (invested / price) - invested) ∧
     (processSuccess symbol invested price).gain_pct
        = Cell.val ((price * (invested / price) - invested) / invested * 100)) ∧
    ((processSuccess symbol 100 50).approx_shares = Cell.val 2 ∧
     (processSuccess symbol 100 50).current_value = Cell.val 100 ∧
     (processSuccess symbol 100 50).gain = Cell.val 0 ∧
     (processSuccess symbol 100 50).gain_pct = Cell.val 0) := by
  refine ⟨⟨rfl, rfl, rfl, ?_⟩, ?_, ?_, ?_, ?_⟩
  · simp [processSuccess, h1.ne']
  · norm_num [processSuccess]
  · norm_num [processSuccess]
  · norm_num [processSuccess]
  · norm_num [processSuccess]

/-- C2 witness: the theorem applied at invested 100, price 50. -/
theorem compute_metrics_formulas_witness :
    (0 : ℚ) < 100 ∧ (0 : ℚ) < 50 ∧
    (processSuccess "AAPL" 100 50).approx_shares = Cell.val 2 :=
  ⟨by norm_num, by norm_num,
   (compute_metrics_formulas "AAPL" 100 50 (by norm_num) (by norm_num)).2.1⟩

/-- C10 (implicit claim): a record whose price fetch fails still adds its
invested amount to `total_invested` while adding nothing to `total_value`,
so against the run where the fetch succeeds at a positive price the
displayed total gain drops by exactly the full invested amount — as if the
current value of the failed entry were zero — while `total_invested` is the
same in both runs. -/
theorem failed_fetch_gain_contribution
    (pre post : List (InvestmentRecord × Option ℚ))
    (r : InvestmentRecord) (p : ℚ) (hp : 0 < p) :
    (runTracker (pre ++ (r, none) :: post)).total_invested
        = (runTracker (pre ++ post)).total_invested + r.amount_invested ∧
    (runTracker (pre ++ (r, none) :: post)).total_value
        = (runTracker (pre ++ post)).total_value ∧
    (runTracker (pre ++ (r, none) :: post)).total_invested
        = (runTracker (pre ++ (r, some p) :: post)).total_invested ∧
    totalGain (runTracker (pre ++ (r, none) :: post))
        = totalGain (runTracker (pre ++ (r, some p) :: post))
            - r.amount_invested := by
  have hv : recordValue (r, some p) = r.amount_invested := by
    simp [recordValue]
    field_simp
  refine ⟨?_, ?_, ?_, ?_⟩
  · rw [runTracker_total_invested, runTracker_total_invested,
      sumInvested_append, sumInvested_append, sumInvested_cons]
    ring
  · rw [runTracker_total_value, runTracker_total_value,
      sumValue_append, sumValue_append, sumValue_cons]
    simp [recordValue]
  · rw [runTracker_total_invested, runTracker_total_invested,
      sumInvested_append, sumInvested_append, sumInvested_cons, sumInvested_cons]
  · rw [totalGain, totalGain, runTracker_total_invested, runTracker_total_invested,
      runTracker_total_value, runTracker_total_value,
      sumInvested_append, sumInvested_append, sumInvested_cons, sumInvested_cons,
      sumValue_append, sumValue_append, sumValue_cons, sumValue_cons, hv]
    simp [recordValue]
    ring

/-- C10 witness: the theorem applied at one concrete failed record
(invested 100) against the succeeding run at price 50. -/
theorem failed_fetch_gain_contribution_witness :
    (0 : ℚ) < 50 ∧
    totalGain (runTracker [(⟨"AAPL", 100, 0⟩, none)])
      = totalGain (runTracker [(⟨"AAPL", 100, 0⟩, some 50)]) - 100 :=
  ⟨by norm_num,
   (failed_fetch_gain_contribution [] [] ⟨"AAPL", 100, 0⟩ 50 (by norm_num)).2.2.2⟩

end Main
